import Mathlib

/-!
Verification of the EmotiBit UDP bridge core (enhanced_bridge.py and
network_bridge.py): the multi-strategy datagram decoder, the bounded
per-channel sample buffers, the windowed metric engine, the connection
state tracker and the parse-rate statistic.

Modelling conventions:
* Python floats are modelled as exact rationals (`ℚ`).  All payloads used
  in concrete statements keep every intermediate value exactly
  representable, so no rounding discrepancy arises.
* `numpy.std` is the population standard deviation `√variance`.  Where the
  code only *compares* against a multiple of the standard deviation the
  comparison is encoded by the equivalent rational comparison of squares
  (for `a ≥ 0`: `a < x ↔ 0 < x ∧ a² < x²`).  Where the code *stores*
  `int(√m · 1000)` (the RMSSD) we store the same integer, computed by
  `ratSqrtFloor`.  The stored activity level is `np.std` of a window; we
  store its square (the variance), an injective monotone recoding on the
  nonnegative reals, so presence/absence and equality statements transfer.
* Python regular-expression scanning (`re.findall`, `re.search`) for the
  three concrete patterns used by the source is implemented directly on
  character lists with the leftmost-scan, greedy-with-backtracking
  semantics of those patterns.
* `float("inf")`/`float("nan")` parse in Python, but every call site first
  filters by a finite magnitude bound which they fail, so mapping them to
  `none` yields identical appended samples.  Only ASCII digits are
  modelled (EmotiBit payloads are ASCII).
-/

unseal Rat.add Rat.mul Rat.inv Rat.sub Nat.gcd

set_option maxRecDepth 1000000

namespace EmotiBit

/-- Python `str.strip` whitespace class (ASCII part): space, tab, newline,
carriage return, vertical tab, form feed.  Also the class of `\s` in the
source's regular expressions. -/
def isPySpace (c : Char) : Bool :=
  c = ' ' ∨ c = '\t' ∨ c = '\n' ∨ c = '\r' ∨ c.toNat = 11 ∨ c.toNat = 12

/-- Python `str.strip()`: remove leading and trailing whitespace. -/
def pyStrip (l : List Char) : List Char :=
  ((l.dropWhile isPySpace).reverse.dropWhile isPySpace).reverse

/-- Python `str.split(sep)` for a one-character separator: splits on every
occurrence and keeps empty pieces (`"".split` gives `[""]`). -/
def splitOnChar (c : Char) : List Char → List (List Char)
  | [] => [[]]
  | x :: xs =>
    let r := splitOnChar c xs
    if x = c then [] :: r
    else
      match r with
      | h :: t => (x :: h) :: t
      | [] => [[x]]

/-- Python `needle in haystack` substring test. -/
def containsSub (needle : List Char) : List Char → Bool
  | [] => needle.isPrefixOf []
  | l@(_ :: rest) => needle.isPrefixOf l || containsSub needle rest

/-- Numeric value of a list of ASCII digits. -/
def natOfDigits (l : List Char) : ℕ :=
  l.foldl (fun a c => 10 * a + (c.toNat - 48)) 0

/-- Greedy match of `\d+\.?\d*` at the head of the input (the body of the
pattern `-?\d+\.?\d*` used by the tagged-type and structured strategies):
one or more digits, optionally a dot followed by any number of digits.
Returns the matched token and the remaining input. -/
def matchBody1 (l : List Char) : Option (List Char × List Char) :=
  let (ds, r1) := l.span Char.isDigit
  if ds = [] then none
  else
    match r1 with
    | '.' :: r2 =>
      let (ds2, r3) := r2.span Char.isDigit
      some (ds ++ '.' :: ds2, r3)
    | _ => some (ds, r1)

/-- Greedy-with-backtracking match of `\d+\.?\d+` at the head of the input
(the body of the pattern `-?\d+\.?\d+` used by the heuristic-numeric
strategy).  Either digits-dot-digits, or a plain digit run of length at
least two (the final `\d+` takes the last digit); a trailing dot is not
consumed. -/
def matchBody2 (l : List Char) : Option (List Char × List Char) :=
  let (ds, r1) := l.span Char.isDigit
  if ds = [] then none
  else
    match r1 with
    | '.' :: r2 =>
      let (ds2, r3) := r2.span Char.isDigit
      if ds2 ≠ [] then some (ds ++ '.' :: ds2, r3)
      else if 2 ≤ ds.length then some (ds, r1) else none
    | _ => if 2 ≤ ds.length then some (ds, r1) else none

/-- Optional leading minus for the patterns `-?\d+...`: a `-` is consumed
only when the body matches right after it (otherwise `-?` backtracks to
the empty match and the body fails on `-` itself, failing the position). -/
def matchNumAt (body : List Char → Option (List Char × List Char)) :
    List Char → Option (List Char × List Char)
  | '-' :: rest =>
    match rest with
    | d :: _ =>
      if d.isDigit then (body rest).map (fun p => ('-' :: p.1, p.2)) else none
    | [] => none
  | l => body l

/-- Scanner for `re.findall`: try a match at every position from the left;
on success continue after the consumed token, otherwise advance one
character.  Fuel-driven; a matched token always consumes at least one
character, so fuel equal to the input length is exact. -/
def scanNums (body : List Char → Option (List Char × List Char)) :
    ℕ → List Char → List (List Char)
  | 0, _ => []
  | _ + 1, [] => []
  | fuel + 1, l@(_ :: rest) =>
    match matchNumAt body l with
    | some (t, r) => t :: scanNums body fuel r
    | none => scanNums body fuel rest

/-- Python `re.findall(r'-?\d+\.?\d*', s)`. -/
def findallNum1 (l : List Char) : List (List Char) :=
  scanNums matchBody1 l.length l

/-- Python `re.findall(r'-?\d+\.?\d+', s)`. -/
def findallNum2 (l : List Char) : List (List Char) :=
  scanNums matchBody2 l.length l

/-- Value of a token produced by the numeric matchers:
`[-]digits[.digits]`; `float` never raises on these. -/
def tokValPos (r : List Char) : ℚ :=
  let (ds, r1) := r.span Char.isDigit
  match r1 with
  | '.' :: fs => (natOfDigits ds : ℚ) + (natOfDigits fs : ℚ) / 10 ^ fs.length
  | _ => (natOfDigits ds : ℚ)

/-- Value of a matched numeric token, with its optional leading minus. -/
def tokVal (t : List Char) : ℚ :=
  match t with
  | '-' :: r => -tokValPos r
  | r => tokValPos r

/-- A digit run as accepted inside a Python numeric literal: nonempty,
made of digits and underscores, starting and ending with a digit, with
every underscore standing between two digits. -/
def okDigitRun (r : List Char) : Bool :=
  !r.isEmpty && r.head?.all Char.isDigit && r.getLast?.all Char.isDigit &&
    (r.zip r.tail).all (fun p => p.1.isDigit || p.2.isDigit)

/-- Digits of a run, underscores removed. -/
def runDigits (r : List Char) : List Char := r.filter Char.isDigit

/-- Mantissa of Python `float()`: `digits[.digits]`, `digits.` or
`.digits`, with underscore-grouping allowed inside each digit run. -/
def pyFloatBody (l : List Char) : Option (ℚ × List Char) :=
  let (r1, t1) := l.span (fun c => c.isDigit || c = '_')
  if r1 = [] then
    match t1 with
    | '.' :: t2 =>
      let (r2, t3) := t2.span (fun c => c.isDigit || c = '_')
      if okDigitRun r2 then
        some ((natOfDigits (runDigits r2) : ℚ) / 10 ^ (runDigits r2).length, t3)
      else none
    | _ => none
  else if okDigitRun r1 then
    let ip : ℚ := natOfDigits (runDigits r1)
    match t1 with
    | '.' :: t2 =>
      let (r2, t3) := t2.span (fun c => c.isDigit || c = '_')
      if r2 = [] then some (ip, t3)
      else if okDigitRun r2 then
        some (ip + (natOfDigits (runDigits r2) : ℚ) / 10 ^ (runDigits r2).length, t3)
      else none
    | _ => some (ip, t1)
  else none

/-- Exponent part of Python `float()`: `e`/`E`, an optional sign and a
digit run. -/
def pyFloatExp (l : List Char) : Option (ℤ × List Char) :=
  match l with
  | c :: t1 =>
    if c = 'e' ∨ c = 'E' then
      let st : Bool × List Char :=
        match t1 with
        | '+' :: r => (false, r)
        | '-' :: r => (true, r)
        | _ => (false, t1)
      let (r2, t3) := st.2.span (fun c => c.isDigit || c = '_')
      if okDigitRun r2 then
        some ((if st.1 then -(natOfDigits (runDigits r2) : ℤ)
               else (natOfDigits (runDigits r2) : ℤ)), t3)
      else none
    else none
  | [] => none

/-- Python `float()` on an already-stripped field: optional sign, mantissa
and optional exponent, consuming the whole input.  `inf`/`nan` forms map
to `none`; every caller filters by a finite magnitude bound that they
fail, so the appended samples are identical (see module comment). -/
def pyFloat (l0 : List Char) : Option ℚ :=
  let sl : Bool × List Char :=
    match l0 with
    | '+' :: r => (false, r)
    | '-' :: r => (true, r)
    | r => (false, r)
  match pyFloatBody sl.2 with
  | some (m, rest) =>
    let qr : ℚ × List Char :=
      match pyFloatExp rest with
      | some (e, r2) => (m * 10 ^ e, r2)
      | none => (m, rest)
    if qr.2 = [] then some (if sl.1 then -qr.1 else qr.1) else none
  | none => none

/-- Round a rational to the nearest integer, ties to even (the rounding
used by Python's fixed-point formatting). -/
def roundHalfEven (q : ℚ) : ℤ :=
  let f := ⌊q⌋
  let r := q - f
  if r < 1 / 2 then f
  else if 1 / 2 < r then f + 1
  else if f % 2 = 0 then f else f + 1

/-- Three decimal digits with leading zeros. -/
def pad3 (n : ℕ) : String :=
  if n < 10 then "00" ++ toString n
  else if n < 100 then "0" ++ toString n
  else toString n

/-- Python `f"{v:.3f}"` on an exactly-representable value. -/
def fmt3 (v : ℚ) : String :=
  let k := roundHalfEven (v * 1000)
  (if k < 0 then "-" else "") ++ toString (k.natAbs / 1000) ++ "." ++ pad3 (k.natAbs % 1000)

/-- The fixed sensor-channel set of `self.sensor_data` (both variants). -/
inductive Channel where
  | PPG_INFRARED | PPG_RED | PPG_GREEN | EDA | TEMPERATURE_0
  | ACCELEROMETER_X | ACCELEROMETER_Y | ACCELEROMETER_Z
  | GYROSCOPE_X | GYROSCOPE_Y | GYROSCOPE_Z
deriving DecidableEq

/-- Key of a channel in the `sensor_data` dictionary. -/
def channelName : Channel → String
  | .PPG_INFRARED => "PPG_INFRARED"
  | .PPG_RED => "PPG_RED"
  | .PPG_GREEN => "PPG_GREEN"
  | .EDA => "EDA"
  | .TEMPERATURE_0 => "TEMPERATURE_0"
  | .ACCELEROMETER_X => "ACCELEROMETER_X"
  | .ACCELEROMETER_Y => "ACCELEROMETER_Y"
  | .ACCELEROMETER_Z => "ACCELEROMETER_Z"
  | .GYROSCOPE_X => "GYROSCOPE_X"
  | .GYROSCOPE_Y => "GYROSCOPE_Y"
  | .GYROSCOPE_Z => "GYROSCOPE_Z"

/-- Channels in dictionary insertion order (the iteration order of
`self.sensor_data.keys()` used by the structured strategy). -/
def channelOrder : List Channel :=
  [.PPG_INFRARED, .PPG_RED, .PPG_GREEN, .EDA, .TEMPERATURE_0,
   .ACCELEROMETER_X, .ACCELEROMETER_Y, .ACCELEROMETER_Z,
   .GYROSCOPE_X, .GYROSCOPE_Y, .GYROSCOPE_Z]

/-- Exact dictionary-key lookup: `name in self.sensor_data`. -/
def channelOfName (l : List Char) : Option Channel :=
  channelOrder.find? (fun c => (channelName c).toList = l)

/-- One buffered sensor reading: `{'timestamp': ..., 'value': ...}`. -/
structure Sample where
  timestamp : ℚ
  value : ℚ
deriving DecidableEq

/-- The per-channel buffer store. -/
abbrev Store := Channel → List Sample

/-- Append to a `collections.deque(maxlen=cap)`: insertion is append-only
and overflow evicts the oldest entry. -/
def dequeAppend (cap : ℕ) (buf : List Sample) (x : Sample) : List Sample :=
  let b := buf ++ [x]
  if cap < b.length then b.drop (b.length - cap) else b

/-- Fold a whole list of insertions into a deque. -/
def dequeAppendAll (cap : ℕ) (buf : List Sample) (xs : List Sample) : List Sample :=
  xs.foldl (dequeAppend cap) buf

/-- Search for `re.search(r'<type>(.*?)</type>', s)` group 1: the shortest
stretch of non-newline characters closed by `</type>` (the `.` of the
lazy group does not match a newline). -/
def typeInner : ℕ → List Char → Option (List Char)
  | 0, _ => none
  | _ + 1, [] => none
  | fuel + 1, l@(c :: rest) =>
    if "</type>".toList.isPrefixOf l then some []
    else if c = '\n' then none
    else (typeInner fuel rest).map (c :: ·)

/-- Leftmost match of `<type>(.*?)</type>`: scan for an occurrence of
`<type>` from which a same-line `</type>` can be reached. -/
def typeTagSearch : ℕ → List Char → Option (List Char)
  | 0, _ => none
  | _ + 1, [] => none
  | fuel + 1, l@(_ :: rest) =>
    if "<type>".toList.isPrefixOf l then
      match typeInner (l.drop 6).length (l.drop 6) with
      | some inner => some inner
      | none => typeTagSearch fuel rest
    else typeTagSearch fuel rest

/-- Result of one decoder strategy: `none` when the strategy reports
failure, otherwise the `(channel, value)` samples it appends to the
buffer store, in order, together with the `last_update` status text it
records. -/
abbrev ParseResult := Option (List (Channel × ℚ) × String)

/-- Strategy 1 of `EmotiBitBridge` (enhanced_bridge.py `parse_xml_format`):
tagged-type.  Requires `<type>`/`</type>` markers, extracts the tag, scans
the whole payload with `-?\d+\.?\d*`, keeps values of magnitude below
100000 other than the sentinel 3000, and on a known channel appends up to
the first five surviving values.  The status text reports the first value
and the number of surviving values. -/
def parseXmlFormat (s : String) : ParseResult :=
  let l := s.toList
  if containsSub "<type>".toList l && containsSub "</type>".toList l then
    (typeTagSearch l.length l).bind (fun inner =>
      let dataType := pyStrip inner
      let values := ((findallNum1 l).map tokVal).filter
        (fun v => decide (|v| < 100000 ∧ v ≠ 3000))
      match channelOfName dataType, values with
      | some ch, v :: _ =>
        some ((values.take 5).map (fun x => (ch, x)),
          "XML: " ++ String.mk dataType ++ " = " ++ fmt3 v ++ " (" ++
            toString values.length ++ " values)")
      | _, _ => none)
  else none

/-- One line of the delimited-fields strategy: requires a comma, at least
three fields, field 1 (stripped) naming a known channel, and at least one
remaining field parsing as a float of magnitude below 100000. -/
def csvTryLine (line : List Char) : Option (Channel × List ℚ) :=
  if line.contains ',' then
    let parts := splitOnChar ',' line
    if 3 ≤ parts.length then
      match channelOfName (pyStrip (parts.getD 1 [])) with
      | some ch =>
        let values := (parts.drop 2).filterMap (fun p =>
          match pyFloat (pyStrip p) with
          | some v => if |v| < 100000 then some v else none
          | none => none)
        if values ≠ [] then some (ch, values) else none
      | none => none
    else none
  else none

/-- First qualifying line, in payload order. -/
def csvFirstLine : List (List Char) → Option (Channel × List ℚ)
  | [] => none
  | ln :: rest =>
    match csvTryLine ln with
    | some r => some r
    | none => csvFirstLine rest

/-- Strategy 2 of `EmotiBitBridge` (`parse_csv_format`): delimited fields.
Strip the payload, split into lines, and decode the first qualifying
line, appending all its surviving values to the named channel. -/
def parseCsvFormat (s : String) : ParseResult :=
  match csvFirstLine (splitOnChar '\n' (pyStrip s.toList)) with
  | some (ch, values) =>
    some (values.map (fun v => (ch, v)),
      "CSV: " ++ channelName ch ++ " = " ++ fmt3 (values.headD 0))
  | none => none

/-- Accelerometer axis rotation of the heuristic-numeric strategy. -/
def accelAxis : ℕ → Channel
  | 0 => .ACCELEROMETER_X
  | 1 => .ACCELEROMETER_Y
  | _ => .ACCELEROMETER_Z

/-- The append loop of the heuristic-numeric strategy: each value of
`values[:6]`, indexed by its position, goes to the first band that
contains it ([500,5000] PPG-infrared, [0,10] EDA, [20,50] temperature,
[-50,50] the accelerometer axis `i mod 3`); other values append
nothing. -/
def numericAppends (vs : List ℚ) : List (Channel × ℚ) :=
  vs.enum.filterMap (fun p =>
    if 500 ≤ p.2 ∧ p.2 ≤ 5000 then some (.PPG_INFRARED, p.2)
    else if 0 ≤ p.2 ∧ p.2 ≤ 10 then some (.EDA, p.2)
    else if 20 ≤ p.2 ∧ p.2 ≤ 50 then some (.TEMPERATURE_0, p.2)
    else if -50 ≤ p.2 ∧ p.2 ≤ 50 then some (accelAxis (p.1 % 3), p.2)
    else none)

/-- Strategy 3 of `EmotiBitBridge` (`parse_numeric_format`): heuristic
numeric.  Scan the payload with `-?\d+\.?\d+`; fail outright on fewer
than two raw matches; keep values in [-1000, 10000] other than the
sentinel 3000; succeed only when at least two survive, classifying the
first six by magnitude band. -/
def parseNumericFormat (s : String) : ParseResult :=
  let numbers := findallNum2 s.toList
  if numbers.length < 2 then none
  else
    let values := (numbers.map tokVal).filter
      (fun v => decide (-1000 ≤ v ∧ v ≤ 10000 ∧ v ≠ 3000))
    if 2 ≤ values.length then
      some (numericAppends (values.take 6),
        "Numeric: " ++ toString values.length ++ " values parsed")
    else none

/-- Case-insensitive match of a channel name at the head of the input,
returning the rest. -/
def matchNameCI (name : List Char) (l : List Char) : Option (List Char) :=
  match name, l with
  | [], r => some r
  | _ :: _, [] => none
  | n :: ns, c :: cs =>
    if n.toLower = c.toLower then matchNameCI ns cs else none

/-- Match at one position of `NAME[:\s=]+(-?\d+\.?\d*)` (ignore-case): the
name, one or more of `:`, `=` or whitespace, and a numeric token.  The
separator class contains no digit or minus, so greedy consumption needs no
backtracking. -/
def structMatchAt (name l : List Char) : Option ℚ :=
  match matchNameCI name l with
  | some r1 =>
    let (cls, r2) := r1.span (fun c => c = ':' || c = '=' || isPySpace c)
    if cls = [] then none
    else (matchNumAt matchBody1 r2).map (fun p => tokVal p.1)
  | none => none

/-- Scan of `re.search` for the structured pattern: leftmost position where
the whole pattern matches. -/
def structSearch (name : List Char) : ℕ → List Char → Option ℚ
  | 0, _ => none
  | _ + 1, [] => none
  | fuel + 1, l@(_ :: rest) =>
    match structMatchAt name l with
    | some v => some v
    | none => structSearch name fuel rest

/-- Iteration over the channel names, in dictionary order, of the
structured strategy: the first name whose pattern matches contributes
exactly one value. -/
def structuredGo : List Channel → List Char → ParseResult
  | [], _ => none
  | ch :: rest, l =>
    match structSearch (channelName ch).toList l.length l with
    | some v =>
      some ([(ch, v)], "Structured: " ++ channelName ch ++ " = " ++ fmt3 v)
    | none => structuredGo rest l

/-- Strategy 4 of `EmotiBitBridge` (`parse_structured_format`): structured
key-value.  The first channel in dictionary order whose name is found
followed by `:`, `=` or whitespace and a signed decimal number
contributes exactly one value. -/
def parseStructuredFormat (s : String) : ParseResult :=
  structuredGo channelOrder s.toList

/-- The decoder chain of `EmotiBitBridge.parse_emotibit_data_improved`:
strategies in the fixed order tagged-type, delimited-fields,
heuristic-numeric, structured key-value; the first success
short-circuits the rest. -/
def parseImprovedChain (s : String) : ParseResult :=
  match parseXmlFormat s with
  | some r => some r
  | none =>
    match parseCsvFormat s with
    | some r => some r
    | none =>
      match parseNumericFormat s with
      | some r => some r
      | none => parseStructuredFormat s

/-- Strategy 1 of `NetworkEmotiBitBridge` (network_bridge.py
`parse_xml_format`): identical extraction and appends, but the status text
omits the surviving-value count (and the variant does not track
`raw_data_samples`). -/
def netParseXmlFormat (s : String) : ParseResult :=
  let l := s.toList
  if containsSub "<type>".toList l && containsSub "</type>".toList l then
    (typeTagSearch l.length l).bind (fun inner =>
      let dataType := pyStrip inner
      let values := ((findallNum1 l).map tokVal).filter
        (fun v => decide (|v| < 100000 ∧ v ≠ 3000))
      match channelOfName dataType, values with
      | some ch, v :: _ =>
        some ((values.take 5).map (fun x => (ch, x)),
          "XML: " ++ String.mk dataType ++ " = " ++ fmt3 v)
      | _, _ => none)
  else none

/-- Strategy 2 of `NetworkEmotiBitBridge` (`parse_csv_format`): line-by-line
identical to the enhanced variant. -/
def netParseCsvFormat (s : String) : ParseResult :=
  match csvFirstLine (splitOnChar '\n' (pyStrip s.toList)) with
  | some (ch, values) =>
    some (values.map (fun v => (ch, v)),
      "CSV: " ++ channelName ch ++ " = " ++ fmt3 (values.headD 0))
  | none => none

/-- Strategy 3 of `NetworkEmotiBitBridge` (`parse_numeric_format`):
line-by-line identical to the enhanced variant. -/
def netParseNumericFormat (s : String) : ParseResult :=
  let numbers := findallNum2 s.toList
  if numbers.length < 2 then none
  else
    let values := (numbers.map tokVal).filter
      (fun v => decide (-1000 ≤ v ∧ v ≤ 10000 ∧ v ≠ 3000))
    if 2 ≤ values.length then
      some (numericAppends (values.take 6),
        "Numeric: " ++ toString values.length ++ " values parsed")
    else none

/-- Strategy 4 of `NetworkEmotiBitBridge` (`parse_structured_format`):
line-by-line identical to the enhanced variant. -/
def netParseStructuredFormat (s : String) : ParseResult :=
  structuredGo channelOrder s.toList

/-- The decoder chain of
`NetworkEmotiBitBridge.parse_emotibit_data_improved`: same strategy order
and short-circuiting. -/
def netParseImprovedChain (s : String) : ParseResult :=
  match netParseXmlFormat s with
  | some r => some r
  | none =>
    match netParseCsvFormat s with
    | some r => some r
    | none =>
      match netParseNumericFormat s with
      | some r => some r
      | none => netParseStructuredFormat s

/-- The metric fields of `current_data` that the Metric Engine recomputes,
plus the status line.  `heart_rate` and `hrv_rmssd` store Python ints;
`activity_level` stores the square of `np.std` (see module comment). -/
structure Metrics where
  heart_rate : Option ℤ
  hrv_rmssd : Option ℕ
  eda_tonic : Option ℚ
  activity_level : Option ℚ
  temperature : Option ℚ
  last_update : String
deriving DecidableEq

/-- The constructor-time `current_data` metric fields. -/
def initMetrics : Metrics :=
  { heart_rate := none, hrv_rmssd := none, eda_tonic := none,
    activity_level := none, temperature := none,
    last_update := "No sensor data received" }

/-- Arithmetic mean (`np.mean`). -/
def popMean (l : List ℚ) : ℚ := l.sum / l.length

/-- Population variance, the square of `np.std`. -/
def popVar (l : List ℚ) : ℚ :=
  let m := popMean l
  popMean (l.map (fun x => (x - m) ^ 2))

/-- Successive differences (`np.diff`). -/
def diffs (l : List ℚ) : List ℚ := (l.zip l.tail).map (fun p => p.2 - p.1)

/-- The `np.median`: middle element of the sorted list, or the average of
the two middle elements for even length.  Callers only apply it to
nonempty lists. -/
def npMedian (l : List ℚ) : ℚ :=
  let s := List.insertionSort (· ≤ ·) l
  let n := l.length
  if n % 2 = 1 then s.getD (n / 2) 0
  else (s.getD (n / 2 - 1) 0 + s.getD (n / 2) 0) / 2

/-- Floor of the square root of a nonnegative rational `p/q` in lowest
terms: `⌊√(p/q)⌋ = ⌊√(pq)/q⌋ = ⌊⌊√(pq)⌋/q⌋`. -/
def ratSqrtFloor (x : ℚ) : ℕ := Nat.sqrt (x.num.toNat * x.den) / x.den

/-- Strict comparison `mean + 0.7·√variance < x` over `ℚ` via squares: for
`a ≥ 0`, `a < x ↔ 0 < x ∧ a² < x²` with `a = 0.7·√variance` and
`x` the centered value, giving `0 < x - mean ∧ 49·variance < 100·(x - mean)²`. -/
def aboveThreshold (mean variance x : ℚ) : Bool :=
  decide (0 < x - mean) && decide (49 * variance < 100 * (x - mean) ^ 2)

/-- Detrending of the heart-rate window: subtract at each index the value
of `np.linspace(values[0], values[-1], n)`, the straight line between the
first and last sample. -/
def detrend (values : List ℚ) : List ℚ :=
  let n := values.length
  let v0 := values.headD 0
  let vl := values.getLastD 0
  values.enum.map (fun p => p.2 - (v0 + p.1 * (vl - v0) / ((n : ℚ) - 1)))

/-- Peak test at index `i` of the detrended series: inside `[2, n-3]`,
strictly above both immediate and both second neighbours, and above
`mean + 0.7·std`. -/
def isPeakAt (d : List ℚ) (m variance : ℚ) (i : ℕ) : Bool :=
  decide (2 ≤ i) && decide (i < d.length - 2) &&
  decide (d.getD (i - 1) 0 < d.getD i 0) && decide (d.getD (i + 1) 0 < d.getD i 0) &&
  decide (d.getD (i - 2) 0 < d.getD i 0) && decide (d.getD (i + 2) 0 < d.getD i 0) &&
  aboveThreshold m variance (d.getD i 0)

/-- Peak indices of a detrended window, the loop
`for i in range(2, len(detrended)-2)` with its five-fold condition. -/
def findPeaks (d : List ℚ) : List ℕ :=
  let m := popMean d
  let v := popVar d
  (List.range d.length).filter (isPeakAt d m v)

/-- Heart-rate and HRV step of `calculate_enhanced_metrics`: needs more
than 30 buffered PPG samples; takes the most recent 50; detrends; finds
peaks; needs at least 3; takes the median inter-peak interval; accepts
`60/median` as BPM only in [30,200], storing `int(...)`; then, with more
than two intervals, stores `int(√(mean diff²)·1000)` as RMSSD when it
lies in [5,300] (encoded on the mean square, see module comment). -/
def hrStep (ppg : List Sample) (cur : Metrics) : Metrics :=
  if 30 < ppg.length then
    let recent := ppg.drop (ppg.length - 50)
    let values := recent.map (·.value)
    let ts := recent.map (·.timestamp)
    if 20 < values.length then
      let d := detrend values
      let peaks := findPeaks d
      if 3 ≤ peaks.length then
        let intervals := diffs (peaks.map (fun p => ts.getD p 0))
        if 0 < intervals.length then
          let med := npMedian intervals
          if 0 < med then
            let hr := 60 / med
            if 30 ≤ hr ∧ hr ≤ 200 then
              let cur1 := { cur with heart_rate := some ⌊hr⌋ }
              if 2 < intervals.length then
                let msq := popMean ((diffs intervals).map (fun x => x ^ 2))
                if 1 / 40000 ≤ msq ∧ msq ≤ 9 / 100 then
                  { cur1 with hrv_rmssd := some (ratSqrtFloor (msq * 1000000)) }
                else cur1
              else cur1
            else cur
          else cur
        else cur
      else cur
    else cur
  else cur

/-- The most recent 20 EDA values, `[d['value'] for d in list(eda)[-20:]]`. -/
def edaWindow (eda : List Sample) : List ℚ :=
  (eda.drop (eda.length - 20)).map (·.value)

/-- EDA step: needs more than 10 samples; tonic level is the median of the
window, accepted only in [0,100]. -/
def edaStep (eda : List Sample) (cur : Metrics) : Metrics :=
  if 10 < eda.length then
    let recent := edaWindow eda
    if recent ≠ [] then
      let tonic := npMedian recent
      if 0 ≤ tonic ∧ tonic ≤ 100 then { cur with eda_tonic := some tonic }
      else cur
    else cur
  else cur

/-- The most recent 30 accelerometer-X values. -/
def accelWindow (accel : List Sample) : List ℚ :=
  (accel.drop (accel.length - 30)).map (·.value)

/-- Activity step: needs more than 15 accelerometer-X samples; the value,
`np.std` of the window, is always accepted; stored here as its square. -/
def activityStep (accel : List Sample) (cur : Metrics) : Metrics :=
  if 15 < accel.length then
    let recent := accelWindow accel
    if recent ≠ [] then { cur with activity_level := some (popVar recent) }
    else cur
  else cur

/-- The most recent 10 temperature values. -/
def tempWindow (temp : List Sample) : List ℚ :=
  (temp.drop (temp.length - 10)).map (·.value)

/-- Temperature step: needs more than 5 samples; the mean of the window is
accepted only in [15,60]. -/
def tempStep (temp : List Sample) (cur : Metrics) : Metrics :=
  if 5 < temp.length then
    let recent := tempWindow temp
    if recent ≠ [] then
      let avg := popMean recent
      if 15 ≤ avg ∧ avg ≤ 60 then { cur with temperature := some avg }
      else cur
    else cur
  else cur

/-- `EmotiBitBridge.calculate_enhanced_metrics`: the four metric blocks in
source order, each reading its channel buffer and updating its fields. -/
def calcMetrics (store : Store) (cur : Metrics) : Metrics :=
  tempStep (store .TEMPERATURE_0)
    (activityStep (store .ACCELEROMETER_X)
      (edaStep (store .EDA)
        (hrStep (store .PPG_INFRARED) cur)))

/-- `NetworkEmotiBitBridge.calculate_enhanced_metrics`: the network
variant's metric computation, transcribed from network_bridge.py; its
body coincides with the enhanced variant's line by line. -/
def netCalcMetrics (store : Store) (cur : Metrics) : Metrics :=
  tempStep (store .TEMPERATURE_0)
    (activityStep (store .ACCELEROMETER_X)
      (edaStep (store .EDA)
        (hrStep (store .PPG_INFRARED) cur)))

/-- One iteration of `process_loop`: with positive received and parsed
counters the metrics are recomputed from the buffers; otherwise every
metric is forced absent and `last_update` reports both counters. -/
def processCycle (received parses : ℕ) (store : Store) (cur : Metrics) : Metrics :=
  if 0 < received ∧ 0 < parses then calcMetrics store cur
  else
    { heart_rate := none, hrv_rmssd := none, eda_tonic := none,
      activity_level := none, temperature := none,
      last_update := "Received " ++ toString received ++ " packets, " ++
        toString parses ++ " parsed" }

/-- Connection status values of `current_data['connection_status']`. -/
inductive ConnStatus where
  | connected | disconnected
deriving DecidableEq

/-- Connection-tracking state of the listener: the published status and
`last_packet_time` (0 before any receipt). -/
structure ConnState where
  status : ConnStatus
  lastPacketTime : ℚ
deriving DecidableEq

/-- Startup state: status `disconnected`, no packet received yet. -/
def connInit : ConnState := ⟨.disconnected, 0⟩

/-- Events visible to the tracker: a datagram receipt at a time, or a
receive-timeout check at a time. -/
inductive ConnEvent where
  | receive (t : ℚ)
  | timeout (t : ℚ)

/-- The listener loop's effect on the tracker: a receipt records the time
and publishes `connected` (regardless of parse success); a timeout check
publishes `disconnected` exactly when a packet was ever received and more
than 10 seconds have elapsed since the last one. -/
def connStep (st : ConnState) : ConnEvent → ConnState
  | .receive t => ⟨.connected, t⟩
  | .timeout t =>
    if 0 < st.lastPacketTime ∧ 10 < t - st.lastPacketTime then
      ⟨.disconnected, st.lastPacketTime⟩
    else st

/-- The `/data` and `/status` statistic
`successful_parses / max(packets_received, 1) * 100`, computed identically
by both variants' handlers. -/
def parseRate (packetsReceived successfulParses : ℕ) : ℚ :=
  (successfulParses : ℚ) / (max packetsReceived 1 : ℕ) * 100

/-! Helper lemmas about the deque buffers. -/

/-- A single deque append, for a buffer within capacity, keeps exactly the
last `cap` entries of the extended buffer. -/
theorem dequeAppend_eq_drop (cap : ℕ) (buf : List Sample) (x : Sample)
    (h : buf.length ≤ cap) :
    dequeAppend cap buf x = (buf ++ [x]).drop ((buf ++ [x]).length - cap) := by
  simp only [dequeAppend]
  split_ifs with h1
  · rfl
  · have h0 : (buf ++ [x]).length - cap = 0 := by
      simp only [List.length_append, List.length_cons, List.length_nil] at h1 ⊢
      omega
    rw [h0, List.drop_zero]

/-- Folding any insertion sequence into a deque that is within capacity
keeps exactly the last `cap` entries of the whole sequence. -/
theorem dequeAppendAll_eq_drop (cap : ℕ) (xs : List Sample) :
    ∀ buf : List Sample, buf.length ≤ cap →
      dequeAppendAll cap buf xs = (buf ++ xs).drop ((buf ++ xs).length - cap) := by
  induction xs with
  | nil =>
    intro buf h
    have h0 : buf.length - cap = 0 := by omega
    simp only [dequeAppendAll, List.foldl_nil, List.append_nil]
    rw [h0, List.drop_zero]
  | cons x xs ih =>
    intro buf h
    have step : dequeAppendAll cap buf (x :: xs) =
        dequeAppendAll cap (dequeAppend cap buf x) xs := rfl
    rw [step, dequeAppend_eq_drop cap buf x h]
    have hlen : ((buf ++ [x]).drop ((buf ++ [x]).length - cap)).length ≤ cap := by
      rw [List.length_drop]; omega
    rw [ih _ hlen]
    have hsplit : ((buf ++ [x]) ++ xs).drop ((buf ++ [x]).length - cap) =
        (buf ++ [x]).drop ((buf ++ [x]).length - cap) ++ xs := by
      rw [List.drop_append_eq_append_drop]
      have h0 : (buf ++ [x]).length - cap - (buf ++ [x]).length = 0 := by omega
      rw [h0, List.drop_zero]
    rw [← hsplit, List.drop_drop]
    have harr : (buf ++ [x]) ++ xs = buf ++ x :: xs := by simp
    rw [harr]
    congr 1
    simp only [List.length_drop, List.length_append, List.length_cons,
      List.length_nil]
    omega

/-- Claim C3: sensor-channel buffers are 200-capacity rings: the length
never exceeds 200, and after more than 200 appends into an initially
empty buffer the length is exactly 200 and the oldest retained sample is
the one inserted at position `N - 200` (0-based), i.e. the (N-199)-th. -/
theorem c3_buffer_ring_semantics (xs : List Sample) :
    (dequeAppendAll 200 [] xs).length = min xs.length 200 ∧
    (∀ buf x, buf.length ≤ 200 → (dequeAppend 200 buf x).length ≤ 200) ∧
    (200 < xs.length →
      (dequeAppendAll 200 [] xs).length = 200 ∧
      (dequeAppendAll 200 [] xs).head? = xs[xs.length - 200]?) := by
  have base := dequeAppendAll_eq_drop 200 xs [] (by simp)
  simp only [List.nil_append] at base
  refine ⟨?_, ?_, ?_⟩
  · rw [base, List.length_drop]; omega
  · intro buf x h
    rw [dequeAppend_eq_drop 200 buf x h, List.length_drop]
    omega
  · intro hN
    constructor
    · rw [base, List.length_drop]; omega
    · rw [base, List.head?_drop]

/-- A run of 201 distinct samples used to witness the ring behaviour. -/
def c3SampleRun : List Sample := (List.range 201).map (fun i => ⟨(i : ℚ), (i : ℚ)⟩)

/-- Witness for claim C3 at a concrete 201-append run: the buffer holds
200 samples and its oldest entry is the second one inserted. -/
theorem c3_buffer_ring_semantics_witness :
    (dequeAppendAll 200 [] c3SampleRun).length = 200 ∧
    (dequeAppendAll 200 [] c3SampleRun).head? = c3SampleRun[c3SampleRun.length - 200]? :=
  (c3_buffer_ring_semantics c3SampleRun).2.2 (by decide)

/-- The synthetic primary-PPG window of claim C1: 50 samples at 20 Hz on a
flat zero baseline with amplitude-100 peaks at indices 10, 26 and 42,
i.e. 0.8 s apart. -/
def synthPPG : List Sample :=
  (List.range 50).map (fun i =>
    { timestamp := (i : ℚ) / 20,
      value := if i = 10 ∨ i = 26 ∨ i = 42 then 100 else 0 })

/-- A buffer store holding only the synthetic PPG window. -/
def synthStore : Store := fun c =>
  match c with
  | .PPG_INFRARED => synthPPG
  | _ => []

/-- Claim C1: the heart-rate extraction (detrend against the first-to-last
line, five-fold neighbour-and-threshold peak test on indices 2..n-3, at
least 3 peaks, BPM = 60 / median inter-peak interval, accepted only in
[30,200]) finds exactly the three synthetic peaks and reports
`heart_rate = 75` on the synthetic 50-sample window. -/
theorem c1_heart_rate_extraction :
    findPeaks (detrend (synthPPG.map (·.value))) = [10, 26, 42] ∧
    (calcMetrics synthStore initMetrics).heart_rate = some 75 := by
  constructor
  · decide
  · decide

/-- A store with no samples at all. -/
def emptyStore : Store := fun _ => []

/-- Claim C5: any process-loop cycle seeing zero received or zero parsed
packets forces every metric absent and overwrites `last_update` with the
counts message, regardless of the previous metric values. -/
theorem c5_zero_counters_reset (received parses : ℕ) (store : Store) (cur : Metrics)
    (h : received = 0 ∨ parses = 0) :
    (processCycle received parses store cur).heart_rate = none ∧
    (processCycle received parses store cur).hrv_rmssd = none ∧
    (processCycle received parses store cur).eda_tonic = none ∧
    (processCycle received parses store cur).activity_level = none ∧
    (processCycle received parses store cur).temperature = none ∧
    (processCycle received parses store cur).last_update =
      "Received " ++ toString received ++ " packets, " ++ toString parses ++ " parsed" := by
  have hneg : ¬(0 < received ∧ 0 < parses) := by omega
  unfold processCycle
  rw [if_neg hneg]
  exact ⟨rfl, rfl, rfl, rfl, rfl, rfl⟩

/-- Witness for claim C5: a cycle with zero received packets wipes a
previously populated snapshot. -/
theorem c5_zero_counters_reset_witness :
    (processCycle 0 3 emptyStore
        { initMetrics with temperature := some 37 }).temperature = none ∧
    (processCycle 0 3 emptyStore
        { initMetrics with temperature := some 37 }).last_update =
      "Received 0 packets, 3 parsed" := by
  have h := c5_zero_counters_reset 0 3 emptyStore
    { initMetrics with temperature := some 37 } (Or.inl rfl)
  exact ⟨h.2.2.2.2.1, h.2.2.2.2.2⟩

/-- Claim C7: the connection tracker starts `disconnected`, publishes
`connected` on every datagram receipt (independent of parse success),
returns to `disconnected` at a receive-timeout check once more than 10
seconds elapsed since the last receipt, and does not flip on a timeout
check before that. -/
theorem c7_connection_state_machine :
    connInit.status = .disconnected ∧
    (∀ st t, (connStep st (.receive t)).status = .connected) ∧
    (∀ st t, 0 < st.lastPacketTime → 10 < t - st.lastPacketTime →
      (connStep st (.timeout t)).status = .disconnected) ∧
    (∀ st t, ¬(0 < st.lastPacketTime ∧ 10 < t - st.lastPacketTime) →
      connStep st (.timeout t) = st) := by
  refine ⟨rfl, fun st t => rfl, fun st t h1 h2 => ?_, fun st t h => ?_⟩
  · simp only [connStep]
    rw [if_pos ⟨h1, h2⟩]
  · simp only [connStep]
    rw [if_neg h]

/-- Witness for claim C7: a receipt at t=1 connects, a timeout check at
t=12 disconnects (gap > 10 s), a further receipt at t=13 reconnects. -/
theorem c7_connection_state_machine_witness :
    (connStep connInit (.receive 1)).status = .connected ∧
    (connStep (connStep connInit (.receive 1)) (.timeout 12)).status = .disconnected ∧
    (connStep (connStep (connStep connInit (.receive 1)) (.timeout 12))
        (.receive 13)).status = .connected := by
  refine ⟨c7_connection_state_machine.2.1 connInit 1, ?_, ?_⟩
  · exact c7_connection_state_machine.2.2.1 (connStep connInit (.receive 1)) 12
      (by decide) (by decide)
  · exact c7_connection_state_machine.2.1 _ 13

/-- Claim C8: the parse-rate statistic divides by `max(received, 1)`, so
zero received packets yield rate 0 with no division fault, and 20 parses
out of 50 packets yield 40.0. -/
theorem c8_parse_rate_values :
    parseRate 0 0 = 0 ∧ parseRate 50 20 = 40 := by
  constructor
  · decide
  · decide

/-! Frame and characterization lemmas for the metric steps. -/

/-- The heart-rate block touches only `heart_rate` and `hrv_rmssd`. -/
theorem hrStep_frame (ppg : List Sample) (cur : Metrics) :
    (hrStep ppg cur).eda_tonic = cur.eda_tonic ∧
    (hrStep ppg cur).activity_level = cur.activity_level ∧
    (hrStep ppg cur).temperature = cur.temperature ∧
    (hrStep ppg cur).last_update = cur.last_update := by
  simp only [hrStep]
  repeat' split
  all_goals exact ⟨rfl, rfl, rfl, rfl⟩

/-- The EDA block touches only `eda_tonic`. -/
theorem edaStep_frame (eda : List Sample) (cur : Metrics) :
    (edaStep eda cur).heart_rate = cur.heart_rate ∧
    (edaStep eda cur).hrv_rmssd = cur.hrv_rmssd ∧
    (edaStep eda cur).activity_level = cur.activity_level ∧
    (edaStep eda cur).temperature = cur.temperature ∧
    (edaStep eda cur).last_update = cur.last_update := by
  simp only [edaStep]
  split_ifs <;> simp

/-- The activity block touches only `activity_level`. -/
theorem activityStep_frame (accel : List Sample) (cur : Metrics) :
    (activityStep accel cur).heart_rate = cur.heart_rate ∧
    (activityStep accel cur).hrv_rmssd = cur.hrv_rmssd ∧
    (activityStep accel cur).eda_tonic = cur.eda_tonic ∧
    (activityStep accel cur).temperature = cur.temperature ∧
    (activityStep accel cur).last_update = cur.last_update := by
  simp only [activityStep]
  split_ifs <;> simp

/-- The temperature block touches only `temperature`. -/
theorem tempStep_frame (temp : List Sample) (cur : Metrics) :
    (tempStep temp cur).heart_rate = cur.heart_rate ∧
    (tempStep temp cur).hrv_rmssd = cur.hrv_rmssd ∧
    (tempStep temp cur).eda_tonic = cur.eda_tonic ∧
    (tempStep temp cur).activity_level = cur.activity_level ∧
    (tempStep temp cur).last_update = cur.last_update := by
  simp only [tempStep]
  split_ifs <;> simp

/-- The heart-rate block either keeps the previous heart rate or stores a
fresh value; it never clears the field. -/
theorem hrStep_heart_rate (ppg : List Sample) (cur : Metrics) :
    (hrStep ppg cur).heart_rate = cur.heart_rate ∨
    ∃ v, (hrStep ppg cur).heart_rate = some v := by
  rcases h : hrStep ppg cur with ⟨a, b, c, d, e, f⟩
  simp only [hrStep] at h
  repeat' split at h
  all_goals rw [← h]
  all_goals first
  | exact Or.inl rfl
  | exact Or.inr ⟨_, rfl⟩

/-- The heart-rate block either keeps the previous RMSSD or stores a
fresh value; it never clears the field. -/
theorem hrStep_hrv (ppg : List Sample) (cur : Metrics) :
    (hrStep ppg cur).hrv_rmssd = cur.hrv_rmssd ∨
    ∃ v, (hrStep ppg cur).hrv_rmssd = some v := by
  rcases h : hrStep ppg cur with ⟨a, b, c, d, e, f⟩
  simp only [hrStep] at h
  repeat' split at h
  all_goals rw [← h]
  all_goals first
  | exact Or.inl rfl
  | exact Or.inr ⟨_, rfl⟩

/-- Exact behaviour of the EDA block on its own field. -/
theorem edaStep_char (eda : List Sample) (cur : Metrics) :
    (edaStep eda cur).eda_tonic =
      if 10 < eda.length ∧ edaWindow eda ≠ [] ∧
          0 ≤ npMedian (edaWindow eda) ∧ npMedian (edaWindow eda) ≤ 100 then
        some (npMedian (edaWindow eda))
      else cur.eda_tonic := by
  simp only [edaStep]
  split_ifs <;> simp_all

/-- Exact behaviour of the activity block on its own field. -/
theorem activityStep_char (accel : List Sample) (cur : Metrics) :
    (activityStep accel cur).activity_level =
      if 15 < accel.length ∧ accelWindow accel ≠ [] then
        some (popVar (accelWindow accel))
      else cur.activity_level := by
  simp only [activityStep]
  split_ifs <;> simp_all

/-- Exact behaviour of the temperature block on its own field. -/
theorem tempStep_char (temp : List Sample) (cur : Metrics) :
    (tempStep temp cur).temperature =
      if 5 < temp.length ∧ tempWindow temp ≠ [] ∧
          15 ≤ popMean (tempWindow temp) ∧ popMean (tempWindow temp) ≤ 60 then
        some (popMean (tempWindow temp))
      else cur.temperature := by
  simp only [tempStep]
  split_ifs <;> simp_all

/-- First store of the claim-C2 counterexample run: six temperature
samples at 37 °C. -/
def c2Store1 : Store := fun c =>
  match c with
  | .TEMPERATURE_0 => (List.range 6).map (fun i => ⟨(i : ℚ), 37⟩)
  | _ => []

/-- Second store of the claim-C2 counterexample run: the same buffer after
ten further samples at 100 °C (append-only evolution), making the
10-sample window mean 100, outside the plausibility range [15,60]. -/
def c2Store2 : Store := fun c =>
  match c with
  | .TEMPERATURE_0 =>
    (List.range 6).map (fun i => ⟨(i : ℚ), 37⟩) ++
      (List.range 10).map (fun i => ⟨(6 + i : ℚ), 100⟩)
  | _ => []

/-- Counterexample to claim C2: in the second recompute cycle the
temperature plausibility check fails (window mean 100 ∉ [15,60]), yet the
snapshot still carries `temperature = some 37` from the first cycle — the
metric is stale, not absent. -/
theorem c2_stale_metric_counterexample :
    ¬(15 ≤ popMean (tempWindow (c2Store2 .TEMPERATURE_0)) ∧
        popMean (tempWindow (c2Store2 .TEMPERATURE_0)) ≤ 60) ∧
    5 < (c2Store2 .TEMPERATURE_0).length ∧
    (processCycle 5 5 c2Store2 (processCycle 5 5 c2Store1 initMetrics)).temperature =
      some 37 := by
  refine ⟨?_, ?_, ?_⟩
  · decide
  · decide
  · decide

/-- Claim C2 amended: within a positive-counter recompute cycle each
metric is either overwritten with a freshly accepted value or left at its
previous (possibly stale) value; `calculate_enhanced_metrics` never sets
a metric to absent, and the EDA, activity and temperature fields follow
their precondition-and-plausibility checks exactly. -/
theorem c2_metrics_never_cleared (store : Store) (cur : Metrics) :
    ((calcMetrics store cur).heart_rate = cur.heart_rate ∨
      ∃ v, (calcMetrics store cur).heart_rate = some v) ∧
    ((calcMetrics store cur).hrv_rmssd = cur.hrv_rmssd ∨
      ∃ v, (calcMetrics store cur).hrv_rmssd = some v) ∧
    ((calcMetrics store cur).eda_tonic =
      if 10 < (store .EDA).length ∧ edaWindow (store .EDA) ≠ [] ∧
          0 ≤ npMedian (edaWindow (store .EDA)) ∧
          npMedian (edaWindow (store .EDA)) ≤ 100 then
        some (npMedian (edaWindow (store .EDA)))
      else cur.eda_tonic) ∧
    ((calcMetrics store cur).activity_level =
      if 15 < (store .ACCELEROMETER_X).length ∧
          accelWindow (store .ACCELEROMETER_X) ≠ [] then
        some (popVar (accelWindow (store .ACCELEROMETER_X)))
      else cur.activity_level) ∧
    ((calcMetrics store cur).temperature =
      if 5 < (store .TEMPERATURE_0).length ∧
          tempWindow (store .TEMPERATURE_0) ≠ [] ∧
          15 ≤ popMean (tempWindow (store .TEMPERATURE_0)) ∧
          popMean (tempWindow (store .TEMPERATURE_0)) ≤ 60 then
        some (popMean (tempWindow (store .TEMPERATURE_0)))
      else cur.temperature) := by
  unfold calcMetrics
  refine ⟨?_, ?_, ?_, ?_, ?_⟩
  · rw [(tempStep_frame _ _).1, (activityStep_frame _ _).1, (edaStep_frame _ _).1]
    exact hrStep_heart_rate _ _
  · rw [(tempStep_frame _ _).2.1, (activityStep_frame _ _).2.1,
      (edaStep_frame _ _).2.1]
    exact hrStep_hrv _ _
  · rw [(tempStep_frame _ _).2.2.1, (activityStep_frame _ _).2.2.1,
      edaStep_char, (hrStep_frame _ _).1]
  · rw [(tempStep_frame _ _).2.2.2.1, activityStep_char,
      (edaStep_frame _ _).2.2.1, (hrStep_frame _ _).2.1]
  · rw [tempStep_char, (activityStep_frame _ _).2.2.2.1,
      (edaStep_frame _ _).2.2.2.1, (hrStep_frame _ _).2.2.1]

/-! Claim-side description of the heuristic-numeric strategy. -/

/-- The values surviving the heuristic strategy's range filter, as the
spec words it: all numeric substrings of the payload whose value lies in
[-1000, 10000] and is not the sentinel 3000, in original order. -/
def heuristicSurvivors (s : String) : List ℚ :=
  ((findallNum2 s.toList).map tokVal).filter
    (fun v => decide (-1000 ≤ v ∧ v ≤ 10000 ∧ v ≠ 3000))

/-- The first band containing a value, as the spec lists them:
[500,5000] PPG-infrared, [0,10] EDA, [20,50] temperature, [-50,50] the
accelerometer axis selected by the position index mod 3; no band means
the value is dropped. -/
def heuristicBand (i : ℕ) (v : ℚ) : Option Channel :=
  if 500 ≤ v ∧ v ≤ 5000 then some .PPG_INFRARED
  else if 0 ≤ v ∧ v ≤ 10 then some .EDA
  else if 20 ≤ v ∧ v ≤ 50 then some .TEMPERATURE_0
  else if -50 ≤ v ∧ v ≤ 50 then some (accelAxis (i % 3))
  else none

/-- Classification of the first six surviving values by band, keeping
original order and position indices. -/
def heuristicClassify (vs : List ℚ) : List (Channel × ℚ) :=
  (vs.take 6).enum.filterMap (fun p => (heuristicBand p.1 p.2).map (fun c => (c, p.2)))

/-- The source's append loop agrees pointwise with band classification. -/
theorem numericAppends_eq_classify (l : List ℚ) :
    numericAppends l =
      l.enum.filterMap (fun p => (heuristicBand p.1 p.2).map (fun c => (c, p.2))) := by
  unfold numericAppends
  apply List.filterMap_congr
  intro p _
  unfold heuristicBand
  split_ifs <;> rfl

/-- Claim C6: whenever the heuristic-numeric strategy succeeds, the
samples it appends are exactly the band classification of the first six
values surviving the [-1000,10000]-minus-sentinel filter, in original
order — at most six appends, with out-of-band values dropped. -/
theorem c6_heuristic_band_classification (s : String) (apps : List (Channel × ℚ))
    (status : String) (h : parseNumericFormat s = some (apps, status)) :
    apps = heuristicClassify (heuristicSurvivors s) ∧ apps.length ≤ 6 := by
  simp only [parseNumericFormat] at h
  split_ifs at h with h1 h2
  rw [Option.some.injEq, Prod.mk.injEq] at h
  obtain ⟨ha, _⟩ := h
  subst ha
  constructor
  · exact numericAppends_eq_classify _
  · rw [numericAppends_eq_classify]
    have hle := List.length_filterMap_le
      (fun p => (heuristicBand p.1 p.2).map (fun c => (c, p.2)))
      (((((findallNum2 s.toList).map tokVal).filter
        (fun v => decide (-1000 ≤ v ∧ v ≤ 10000 ∧ v ≠ 3000))).take 6).enum)
    rw [List.enum_length, List.length_take] at hle
    omega

/-- Payload for the claim-C6 witness: four numbers hitting respectively
the PPG, EDA, temperature and accelerometer bands. -/
def c6Payload : String := "600.0 7.0 30.0 -3.5"

/-- The appends the heuristic strategy produces on `c6Payload`. -/
def c6Apps : List (Channel × ℚ) :=
  [(.PPG_INFRARED, 600), (.EDA, 7), (.TEMPERATURE_0, 30), (.ACCELEROMETER_X, -7/2)]

/-- Witness for claim C6 on a concrete payload: the strategy succeeds and
its appends coincide with the band classification. -/
theorem c6_heuristic_band_classification_witness :
    parseNumericFormat c6Payload = some (c6Apps, "Numeric: 4 values parsed") ∧
    (c6Apps = heuristicClassify (heuristicSurvivors c6Payload) ∧ c6Apps.length ≤ 6) :=
  ⟨by decide,
    c6_heuristic_band_classification c6Payload c6Apps "Numeric: 4 values parsed" (by decide)⟩

/-- Claim C10: with fewer than two surviving values the heuristic-numeric
strategy reports failure and appends nothing, even when the lone value
lies inside a classification band. -/
theorem c10_too_few_survivors_fail (s : String)
    (h : (heuristicSurvivors s).length < 2) :
    parseNumericFormat s = none := by
  simp only [parseNumericFormat]
  split_ifs with h1 h2
  · rfl
  · exfalso
    have h3 : ¬2 ≤ (heuristicSurvivors s).length := by omega
    exact h3 h2
  · rfl

/-- Payload for the claim-C10 witness: exactly one usable numeric value,
inside the EDA band. -/
def c10Payload : String := "7.5 abc"

/-- Witness for claim C10: one surviving in-band value, strategy fails. -/
theorem c10_too_few_survivors_fail_witness :
    (heuristicSurvivors c10Payload).length < 2 ∧ parseNumericFormat c10Payload = none :=
  ⟨by decide, c10_too_few_survivors_fail c10Payload (by decide)⟩

/-! Decoder priority order and variant comparison. -/

/-- Payload matching both the delimited-fields pattern (line
`a,EDA,2.5`) and the structured key-value pattern (`EDA 7.5`) for the
same channel with different values. -/
def c4Payload : String := "a,EDA,2.5\nEDA 7.5"

/-- Claim C4: the decoder chain tries tagged-type, delimited-fields,
heuristic-numeric and structured key-value in that fixed order and the
first success short-circuits the rest; whenever the tagged-type strategy
fails and the delimited-fields strategy succeeds, the chain's appends are
the delimited-fields appends, and on the doubly-matching payload the
chain yields the delimited-fields value 2.5, not the structured 7.5. -/
theorem c4_priority_order :
    (∀ s, parseXmlFormat s = none → parseCsvFormat s ≠ none →
      parseImprovedChain s = parseCsvFormat s) ∧
    (parseImprovedChain c4Payload).map Prod.fst = some [(Channel.EDA, 5 / 2)] ∧
    (parseStructuredFormat c4Payload).map Prod.fst = some [(Channel.EDA, 15 / 2)] := by
  refine ⟨?_, by decide, by decide⟩
  intro s h1 h2
  unfold parseImprovedChain
  rw [h1]
  cases h : parseCsvFormat s with
  | none => exact absurd h h2
  | some r => rfl

/-- Witness for claim C4: on the doubly-matching payload the chain
resolves via the delimited-fields strategy. -/
theorem c4_priority_order_witness :
    parseImprovedChain c4Payload = parseCsvFormat c4Payload :=
  c4_priority_order.1 c4Payload (by decide) (by decide)

/-- The two variants' tagged-type strategies append the same samples (the
status texts differ). -/
theorem parseXml_fst_eq (s : String) :
    (parseXmlFormat s).map Prod.fst = (netParseXmlFormat s).map Prod.fst := by
  simp only [parseXmlFormat, netParseXmlFormat]
  split_ifs with hc
  · cases h1 : typeTagSearch s.toList.length s.toList with
    | none => rfl
    | some inner =>
      simp only [Option.some_bind]
      cases h2 : channelOfName (pyStrip inner) with
      | none => rfl
      | some ch =>
        cases h3 : ((findallNum1 s.toList).map tokVal).filter
            (fun v => decide (|v| < 100000 ∧ v ≠ 3000)) with
        | nil => rfl
        | cons v vs => rfl
  · rfl

/-- The two variants' decoder chains agree on success and on every
appended sample. -/
theorem chain_fst_eq (s : String) :
    (parseImprovedChain s).map Prod.fst = (netParseImprovedChain s).map Prod.fst := by
  have hx := parseXml_fst_eq s
  unfold parseImprovedChain netParseImprovedChain
  cases h1 : parseXmlFormat s with
  | some r1 =>
    cases h2 : netParseXmlFormat s with
    | none => rw [h1, h2] at hx; exact absurd hx (by simp)
    | some r2 =>
      rw [h1, h2] at hx
      simpa using hx
  | none =>
    cases h2 : netParseXmlFormat s with
    | some r2 => rw [h1, h2] at hx; exact absurd hx (by simp)
    | none => rfl

/-- Payload on which the two variants publish different status lines. -/
def c9Payload : String := "<type>EDA</type> 1.5 2.5"

/-- Counterexample to claim C9 as stated: the variants do not differ only
in bind address and CORS policy — on the same tagged-type payload the
enhanced variant records the status `XML: EDA = 1.500 (2 values)` while
the network variant records `XML: EDA = 1.500`, an observable divergence
of the served `last_update` field. -/
theorem c9_status_divergence_counterexample :
    (parseXmlFormat c9Payload).map Prod.snd = some "XML: EDA = 1.500 (2 values)" ∧
    (netParseXmlFormat c9Payload).map Prod.snd = some "XML: EDA = 1.500" ∧
    parseImprovedChain c9Payload ≠ netParseImprovedChain c9Payload := by
  refine ⟨by decide, by decide, by decide⟩

/-- Claim C9 amended: for every payload the two bridge variants produce
the same decoder success/failure outcome and the same (channel, value)
appends, and their metric computations agree on heart rate, RMSSD, EDA
tonic, activity level and temperature; beyond bind address and CORS
policy they additionally differ in the tagged-type status text recorded
in `last_update`. -/
theorem c9_core_equivalence :
    (∀ s, (parseImprovedChain s).map Prod.fst = (netParseImprovedChain s).map Prod.fst) ∧
    (∀ s, (parseImprovedChain s).isSome = (netParseImprovedChain s).isSome) ∧
    (∀ store cur,
      (calcMetrics store cur).heart_rate = (netCalcMetrics store cur).heart_rate ∧
      (calcMetrics store cur).hrv_rmssd = (netCalcMetrics store cur).hrv_rmssd ∧
      (calcMetrics store cur).eda_tonic = (netCalcMetrics store cur).eda_tonic ∧
      (calcMetrics store cur).activity_level = (netCalcMetrics store cur).activity_level ∧
      (calcMetrics store cur).temperature = (netCalcMetrics store cur).temperature) := by
  refine ⟨chain_fst_eq, ?_, fun store cur => ⟨rfl, rfl, rfl, rfl, rfl⟩⟩
  intro s
  have h := congrArg Option.isSome (chain_fst_eq s)
  simpa using h

/-- Witness for the amended claim C2 at the counterexample stores: with
the plausibility check failing, the temperature field passes through the
cycle unchanged. -/
theorem c2_metrics_never_cleared_witness :
    (calcMetrics c2Store2 (processCycle 5 5 c2Store1 initMetrics)).temperature =
      (processCycle 5 5 c2Store1 initMetrics).temperature := by
  have h := (c2_metrics_never_cleared c2Store2
    (processCycle 5 5 c2Store1 initMetrics)).2.2.2.2
  rw [h, if_neg (by decide)]

/-- Witness for the amended claim C9 at the divergence payload: the two
chains still append the same samples there. -/
theorem c9_core_equivalence_witness :
    (parseImprovedChain c9Payload).map Prod.fst =
      (netParseImprovedChain c9Payload).map Prod.fst :=
  c9_core_equivalence.1 c9Payload

end EmotiBit
